import Mathlib

/-!
Verification of `importAsset.py`, a batch importer of Alembic (`.abc`) and
FBX assets into Unreal Engine.  The Python module is shallowly embedded:

* Python strings are Lean `String`s; `str.lower()` is modelled character-wise
  by `pyLower`, and the Python substring test `needle in haystack` by
  `pyInStr` (decidable infix on the character lists).
* The Unreal option/task objects are plain records holding exactly the
  editor properties the script sets (`save` is `Option Bool` because only
  the Alembic builder sets it; unset properties keep their engine defaults,
  which the script never touches).
* Side effects are made explicit: `print` calls accumulate into a list of
  strings, and calls into the host (`ASSET_TOOLS.import_asset_tasks`,
  `ScopedSlowTask` progress frames) become `Event`s in a trace.
* Python runtime faults are values of `PyError` in a `PyResult`.
  The float literals `90.0, 0.0, 0.0` in the Alembic rotation are exact
  integers and are modelled as `Int`.
-/

/-- Character-wise model of Python `str.lower()`. -/
def pyLower (s : String) : String :=
  ⟨s.data.map Char.toLower⟩

/-- Model of the Python substring test `needle in haystack` (for strings,
`in` is containment of `needle` as a contiguous substring). -/
def pyInStr (needle haystack : String) : Bool :=
  decide (needle.data <:+: haystack.data)

/-- The editor properties `buildStaticMeshImportTask` sets on
`unreal.FbxImportUI` (src lines 46-52). -/
structure FbxImportUI where
  import_mesh : Bool
  import_textures : Bool
  import_materials : Bool
  import_as_skeletal : Bool
deriving DecidableEq, Repr

/-- `unreal.AlembicImportType` values (only `GEOMETRY_CACHE` is used). -/
inductive AlembicImportType where
  | static_mesh
  | geometry_cache
  | skeletal
deriving DecidableEq, Repr

/-- `unreal.AbcConversionPreset` values (only `MAX` is used). -/
inductive AbcConversionPreset where
  | custom
  | maya
  | max
deriving DecidableEq, Repr

/-- The properties `buildAlembicImportTask` passes to
`unreal.AbcConversionSettings(preset=..., rotation=...)`. -/
structure AbcConversionSettings where
  preset : AbcConversionPreset
  rotation : List Int
deriving DecidableEq, Repr

/-- The property `buildAlembicImportTask` passes to
`unreal.AbcGeometryCacheSettings(flatten_tracks=...)`. -/
structure AbcGeometryCacheSettings where
  flatten_tracks : Bool
deriving DecidableEq, Repr

/-- The property `buildAlembicImportTask` passes to
`unreal.AbcSamplingSettings(skip_empty=...)`. -/
structure AbcSamplingSettings where
  skip_empty : Bool
deriving DecidableEq, Repr

/-- The editor properties `buildAlembicImportTask` sets on
`unreal.AbcImportSettings` (src lines 79-88). -/
structure AbcImportSettings where
  import_type : AlembicImportType
  conversion_settings : AbcConversionSettings
  geometry_cache_settings : AbcGeometryCacheSettings
  sampling_settings : AbcSamplingSettings
deriving DecidableEq, Repr

/-- The type-specific options bundle attached to a task: one of the two
option objects the script builds. -/
inductive ImportOptions where
  | fbx (ui : FbxImportUI)
  | abc (settings : AbcImportSettings)
deriving DecidableEq, Repr

/-- The editor properties the script sets on `unreal.AssetImportTask`.
`save` is set only by the Alembic builder (src line 98), hence `Option`. -/
structure AssetImportTask where
  destination_path : String
  automated : Bool
  options : ImportOptions
  filename : String
  replace_existing : Bool
  save : Option Bool
deriving DecidableEq, Repr

/-- src lines 32-64: build an import task for an FBX file with fixed
mesh-only FBX options. -/
def buildStaticMeshImportTask (srcPath dstDir : String)
    (automated replaceExisting : Bool) : AssetImportTask :=
  let importOptions : FbxImportUI :=
    { import_mesh := true
      import_textures := false
      import_materials := false
      import_as_skeletal := false }
  { destination_path := dstDir
    automated := automated
    options := ImportOptions.fbx importOptions
    filename := srcPath
    replace_existing := replaceExisting
    save := none }

/-- src lines 66-102: build an import task for an Alembic file with fixed
geometry-cache options; also sets `save := True`. -/
def buildAlembicImportTask (srcPath dstDir : String)
    (automated replaceExisting : Bool) : AssetImportTask :=
  let importOptions : AbcImportSettings :=
    { import_type := AlembicImportType.geometry_cache
      conversion_settings :=
        { preset := AbcConversionPreset.max, rotation := [90, 0, 0] }
      geometry_cache_settings := { flatten_tracks := true }
      sampling_settings := { skip_empty := true } }
  { destination_path := dstDir
    automated := automated
    options := ImportOptions.abc importOptions
    filename := srcPath
    replace_existing := replaceExisting
    save := some true }

/-- src lines 104-115: `return 'eye' in file.lower()`. -/
def shouldManuallyImportABC (file : String) : Bool :=
  pyInStr "eye" (pyLower file)

/-- src lines 117-128: `return 'character' in file.lower()`. -/
def shouldManuallyImportFBX (file : String) : Bool :=
  pyInStr "character" (pyLower file)

/-- The two recognized file-type selectors. -/
inductive Filetype where
  | abc
  | fbx
deriving DecidableEq, Repr

/-- The dispatch of src lines 142-150: `filetype.lower()` is compared
against `'abc'` and `'fbx'`; an unrecognized selector yields `none`. -/
def selectFiletype (filetype : String) : Option Filetype :=
  if pyLower filetype = "abc" then some Filetype.abc
  else if pyLower filetype = "fbx" then some Filetype.fbx
  else none

/-- The task builder `buildImportTask` is bound to (src lines 143, 146). -/
def builderFor : Filetype → String → String → Bool → Bool → AssetImportTask
  | Filetype.abc => buildAlembicImportTask
  | Filetype.fbx => buildStaticMeshImportTask

/-- The classifier `shouldManuallyImport` is bound to (src lines 144, 147). -/
def classifierFor : Filetype → String → Bool
  | Filetype.abc => shouldManuallyImportABC
  | Filetype.fbx => shouldManuallyImportFBX

/-- Python runtime faults this script can raise. -/
inductive PyError where
  | nameError (name : String)
  | typeError
deriving DecidableEq, Repr

/-- Outcome of running a Python function: it either raises a fault or
returns a value. -/
inductive PyResult (α : Type) where
  | raised (e : PyError)
  | returned (v : α)
deriving DecidableEq, Repr

/-- Outcome of `buildImportTaskList`: the strings printed, and either a
raised fault, or the returned value — `none` models Python's bare
`return` (returning `None`), `some (manualTasks, autoTasks)` the tuple. -/
structure TaskListOutcome where
  prints : List String
  result : PyResult (Option (List AssetImportTask × List AssetImportTask))
deriving DecidableEq, Repr

/-- src lines 130-169, literally.  In the recognized-selector branches the
loop header `for file in os.listdir(srcDir)` (line 156) reads the name
`srcDir`, which is bound nowhere (the parameter is `srcPath`), so Python
raises `NameError` before printing or building anything. -/
def buildImportTaskList (filetype srcPath gameDir : String)
    (replaceExisting : Bool) : TaskListOutcome :=
  match selectFiletype filetype with
  | some _ => { prints := [], result := PyResult.raised (PyError.nameError "srcDir") }
  | none =>
      { prints := ["invalid filetype: " ++ filetype]
        result := PyResult.returned none }

/-- The loop of src lines 156-169 as a function of the file listing it
iterates over: per entry it prints, builds a task from `srcPath` (NOT from
the entry: the entry name `file` is used only by the classifier), and
appends it to the manual or the automatic list.  Returns
(prints, manualTasks, autoTasks). -/
def importTaskLoop (build : String → String → Bool → Bool → AssetImportTask)
    (classify : String → Bool) (srcPath gameDir : String)
    (replaceExisting : Bool) :
    List String → List String × List AssetImportTask × List AssetImportTask
  | [] => ([], [], [])
  | file :: rest =>
      let msg := "Importing " ++ srcPath ++ " to " ++ gameDir
      let out := importTaskLoop build classify srcPath gameDir replaceExisting rest
      if classify file then
        (msg :: out.1, build srcPath gameDir false replaceExisting :: out.2.1, out.2.2)
      else
        (msg :: out.1, out.2.1, build srcPath gameDir true replaceExisting :: out.2.2)

/-- Modelled from the spec: src line 156 iterates `os.listdir(srcDir)`, but
`srcDir` is an unbound name (the parameter is `srcPath`), so the literal
code faults (see `buildImportTaskList`).  The spec's contract — "enumerate
every entry in the source directory" — is modelled by taking the
directory's listing as the explicit argument `files`; all else translates
src lines 142-169 unchanged. -/
def buildImportTaskListRun (filetype srcPath gameDir : String)
    (replaceExisting : Bool) (files : List String) : TaskListOutcome :=
  match selectFiletype filetype with
  | some ft =>
      let out := importTaskLoop (builderFor ft) (classifierFor ft)
        srcPath gameDir replaceExisting files
      { prints := out.1, result := PyResult.returned (some (out.2.1, out.2.2)) }
  | none =>
      { prints := ["invalid filetype: " ++ filetype]
        result := PyResult.returned none }

/-- Observable actions of the batch entry points: printed lines, calls to
`ASSET_TOOLS.import_asset_tasks`, the progress dialog, and
`slow_task.enter_progress_frame`. -/
inductive Event where
  | printed (msg : String)
  | importTasksCall (tasks : List AssetImportTask)
  | makeDialog
  | progressFrame (amount : Nat)
deriving DecidableEq, Repr

/-- src lines 171-190, literally.  Line 184 passes `replaceExisting=False`
to `buildImportTaskList` regardless of this function's own
`replaceExisting` parameter.  The task-list call raises `NameError`
(unbound `srcDir`), so no submission ever happens; the `returned` branches
below are unreachable but translate lines 184-190 (unpacking a `None`
return would be a `TypeError`). -/
def batchImportAlembic (srcPath gameDir : String) (replaceExisting : Bool) :
    List Event × PyResult Unit :=
  let r := buildImportTaskList "abc" srcPath gameDir false
  match r.result with
  | PyResult.raised e => (r.prints.map Event.printed, PyResult.raised e)
  | PyResult.returned none =>
      (r.prints.map Event.printed, PyResult.raised PyError.typeError)
  | PyResult.returned (some (manualTasks, autoTasks)) =>
      (r.prints.map Event.printed
        ++ [Event.importTasksCall manualTasks, Event.importTasksCall autoTasks],
       PyResult.returned ())

/-- Modelled from the spec: `batchImportAlembic` with the directory
enumeration repaired as in `buildImportTaskListRun` (the literal pipeline
faults on the unbound `srcDir` before submitting anything).  Line 184 still
passes `replaceExisting=False` regardless of the parameter; lines 187-188
then submit the manual group and the automatic group, in that order, as
two separate `import_asset_tasks` calls. -/
def batchImportAlembicRun (srcPath gameDir : String) (replaceExisting : Bool)
    (files : List String) : List Event × PyResult Unit :=
  let r := buildImportTaskListRun "abc" srcPath gameDir false files
  match r.result with
  | PyResult.raised e => (r.prints.map Event.printed, PyResult.raised e)
  | PyResult.returned none =>
      (r.prints.map Event.printed, PyResult.raised PyError.typeError)
  | PyResult.returned (some (manualTasks, autoTasks)) =>
      (r.prints.map Event.printed
        ++ [Event.importTasksCall manualTasks, Event.importTasksCall autoTasks],
       PyResult.returned ())

/-- The loop of src lines 214-225 over the automatic tasks: per task it
prints the task's filename and destination, submits the single task to the
host as a one-element batch, then advances the progress bar by one frame. -/
def verboseAutoLoop : List AssetImportTask → List Event
  | [] => []
  | task :: rest =>
      Event.printed ("Importing " ++ task.filename ++ " to " ++ task.destination_path)
        :: Event.importTasksCall [task]
        :: Event.progressFrame 1
        :: verboseAutoLoop rest

/-- src lines 193-225, literally.  Line 201 passes `'abc'` (not the
`filetype` parameter) and `replaceExisting=False` (not the parameter) to
`buildImportTaskList`, which raises `NameError` (unbound `srcDir`). -/
def batchImportVerbose (filetype srcPath gameDir : String)
    (replaceExisting : Bool) : List Event × PyResult Unit :=
  let r := buildImportTaskList "abc" srcPath gameDir false
  match r.result with
  | PyResult.raised e => (r.prints.map Event.printed, PyResult.raised e)
  | PyResult.returned none =>
      (r.prints.map Event.printed, PyResult.raised PyError.typeError)
  | PyResult.returned (some (manualTasks, _autoTasks)) =>
      (r.prints.map Event.printed ++ [Event.importTasksCall manualTasks],
       PyResult.raised (PyError.nameError "character"))

/-- Modelled from the spec: `batchImportVerbose` with the directory
enumeration repaired as in `buildImportTaskListRun`.  After the manual
group is submitted (line 204), line 208 builds the progress label
`f"(Auto) Importing {filetype} files for {character}_{anim}..."`: the
names `character` and `anim` are bound nowhere, so `NameError` is raised
before the dialog is shown and before any automatic task is submitted —
the loop modelled by `verboseAutoLoop` is never reached. -/
def batchImportVerboseRun (filetype srcPath gameDir : String)
    (replaceExisting : Bool) (files : List String) :
    List Event × PyResult Unit :=
  let r := buildImportTaskListRun "abc" srcPath gameDir false files
  match r.result with
  | PyResult.raised e => (r.prints.map Event.printed, PyResult.raised e)
  | PyResult.returned none =>
      (r.prints.map Event.printed, PyResult.raised PyError.typeError)
  | PyResult.returned (some (manualTasks, _autoTasks)) =>
      (r.prints.map Event.printed ++ [Event.importTasksCall manualTasks],
       PyResult.raised (PyError.nameError "character"))

/-- Whether an event is a progress-frame advance. -/
def Event.isProgress : Event → Bool
  | Event.progressFrame _ => true
  | _ => false

/-- Characterization of the loop of src lines 156-169: the printed lines are
one fixed message per entry, the manual group is one task (built from
`srcPath`, automated `false`) per entry the classifier accepts, and the
automatic group is one task (automated `true`) per entry it rejects. -/
theorem importTaskLoop_eq
    (build : String → String → Bool → Bool → AssetImportTask)
    (classify : String → Bool) (srcPath gameDir : String)
    (replaceExisting : Bool) (files : List String) :
    importTaskLoop build classify srcPath gameDir replaceExisting files =
      (files.map (fun _ => "Importing " ++ srcPath ++ " to " ++ gameDir),
       (files.filter classify).map
         (fun _ => build srcPath gameDir false replaceExisting),
       (files.filter (fun f => !classify f)).map
         (fun _ => build srcPath gameDir true replaceExisting)) := by
  induction files with
  | nil => rfl
  | cons file rest ih =>
      rw [importTaskLoop, ih, List.filter_cons, List.filter_cons, List.map_cons]
      by_cases h : classify file = true
      · simp [h]
      · simp [h]

/-- The loop of src lines 156-169 puts every entry's task in exactly one of
the two groups: the group sizes sum to the number of entries. -/
theorem importTaskLoop_length
    (build : String → String → Bool → Bool → AssetImportTask)
    (classify : String → Bool) (srcPath gameDir : String)
    (replaceExisting : Bool) (files : List String) :
    (importTaskLoop build classify srcPath gameDir replaceExisting files).2.1.length
      + (importTaskLoop build classify srcPath gameDir replaceExisting files).2.2.length
      = files.length := by
  induction files with
  | nil => rfl
  | cons file rest ih =>
      rw [importTaskLoop]
      by_cases h : classify file = true
      · simp only [h, if_true, List.length_cons]
        omega
      · simp only [h, if_false, Bool.false_eq_true, List.length_cons]
        omega

/-- C1: the claim says every entry of the source directory yields exactly
one task in exactly one group.  The code cannot do this: for both
recognized selectors `buildImportTaskList` raises `NameError` at
`os.listdir(srcDir)` (src line 156; `srcDir` is unbound, the parameter is
`srcPath`) and builds nothing.  With the enumeration repaired, the loop of
lines 156-169 does place exactly one task per entry in exactly one group. -/
theorem taskListBuilder_nameError_bug (srcPath gameDir : String)
    (replaceExisting : Bool) :
    buildImportTaskList "abc" srcPath gameDir replaceExisting
      = ⟨[], PyResult.raised (PyError.nameError "srcDir")⟩ ∧
    buildImportTaskList "fbx" srcPath gameDir replaceExisting
      = ⟨[], PyResult.raised (PyError.nameError "srcDir")⟩ ∧
    ∀ (k : Filetype) (files : List String),
      (importTaskLoop (builderFor k) (classifierFor k) srcPath gameDir
          replaceExisting files).2.1.length
        + (importTaskLoop (builderFor k) (classifierFor k) srcPath gameDir
            replaceExisting files).2.2.length
        = files.length := by
  refine ⟨rfl, rfl, ?_⟩
  intro k files
  exact importTaskLoop_length _ _ _ _ _ _

/-- C2: the manual-import classifiers return `true` exactly when the
filename, lowercased character-wise, contains the trigger substring
(`"eye"` for Alembic, `"character"` for FBX) as a contiguous substring. -/
theorem manualClassifier_iff_substring (file : String) :
    (shouldManuallyImportABC file = true ↔
      ∃ pre post, file.data.map Char.toLower = pre ++ "eye".data ++ post) ∧
    (shouldManuallyImportFBX file = true ↔
      ∃ pre post, file.data.map Char.toLower = pre ++ "character".data ++ post) := by
  have key : ∀ needle : String, pyInStr needle (pyLower file) = true ↔
      ∃ pre post, file.data.map Char.toLower = pre ++ needle.data ++ post := by
    intro needle
    simp only [pyInStr, pyLower, decide_eq_true_eq]
    constructor
    · rintro ⟨s, t, h⟩
      exact ⟨s, t, h.symm⟩
    · rintro ⟨s, t, h⟩
      exact ⟨s, t, h.symm⟩
  exact ⟨key "eye", key "character"⟩

/-- Witness for C2: `"Hero_EYE_01.abc"` contains `"eye"` case-insensitively
and is classified as manual. -/
theorem manualClassifier_iff_substring_witness :
    shouldManuallyImportABC "Hero_EYE_01.abc" = true :=
  (manualClassifier_iff_substring "Hero_EYE_01.abc").1.mpr
    ⟨"hero_".data, "_01.abc".data, by decide⟩

/-- C3: regardless of source path, destination and the two flags, the FBX
builder always attaches exactly the fixed FBX options (mesh only) and the
Alembic builder always attaches exactly the fixed Alembic options
(geometry-cache type, MAX preset with rotation [90, 0, 0], flattened
tracks, empty samples skipped). -/
theorem taskBuilders_fixed_options (srcPath dstDir : String)
    (automated replaceExisting : Bool) :
    (buildStaticMeshImportTask srcPath dstDir automated replaceExisting).options
      = ImportOptions.fbx
          { import_mesh := true
            import_textures := false
            import_materials := false
            import_as_skeletal := false } ∧
    (buildAlembicImportTask srcPath dstDir automated replaceExisting).options
      = ImportOptions.abc
          { import_type := AlembicImportType.geometry_cache
            conversion_settings :=
              { preset := AbcConversionPreset.max, rotation := [90, 0, 0] }
            geometry_cache_settings := { flatten_tracks := true }
            sampling_settings := { skip_empty := true } } :=
  ⟨rfl, rfl⟩

/-- C4: a selector whose lowercasing is neither `"abc"` nor `"fbx"` makes
`buildImportTaskList` print the diagnostic and return `None`: no task is
built, nothing is submitted, no fault is raised. -/
theorem taskListBuilder_invalid_selector (filetype srcPath gameDir : String)
    (replaceExisting : Bool) (habc : pyLower filetype ≠ "abc")
    (hfbx : pyLower filetype ≠ "fbx") :
    buildImportTaskList filetype srcPath gameDir replaceExisting
      = ⟨["invalid filetype: " ++ filetype], PyResult.returned none⟩ := by
  rw [buildImportTaskList, selectFiletype]
  rw [if_neg habc, if_neg hfbx]

/-- Witness for C4: selector `"obj"` is rejected with the diagnostic and a
`None` return. -/
theorem taskListBuilder_invalid_selector_witness :
    buildImportTaskList "obj" "C:/assets" "/Game/Props/" false
      = ⟨["invalid filetype: " ++ "obj"], PyResult.returned none⟩ :=
  taskListBuilder_invalid_selector "obj" "C:/assets" "/Game/Props/" false
    (by decide) (by decide)

/-- C5: on the spec's scenario (`hero_eye_01.abc`, `prop_box.abc`) the
groups do split one/one with `replace_existing = false`, but each task's
`filename` is the source DIRECTORY (`srcPath` is what src lines 161/165
pass), not the entry's own path, contradicting the claim that a task
carries the individual file's source file path.  (The literal
`buildImportTaskList` additionally raises `NameError`; this evaluation uses
the enumeration-repaired model.) -/
theorem taskList_srcPath_not_entry_bug :
    (buildImportTaskListRun "abc" "C:/assets" "/Game/Characters/Anim/" false
        ["hero_eye_01.abc", "prop_box.abc"]).result
      = PyResult.returned (some
          ([buildAlembicImportTask "C:/assets" "/Game/Characters/Anim/" false false],
           [buildAlembicImportTask "C:/assets" "/Game/Characters/Anim/" true false])) ∧
    (buildAlembicImportTask "C:/assets" "/Game/Characters/Anim/" false false).filename
      = "C:/assets" ∧
    (buildAlembicImportTask "C:/assets" "/Game/Characters/Anim/" true false).filename
      = "C:/assets" ∧
    (buildAlembicImportTask "C:/assets" "/Game/Characters/Anim/" false false).replace_existing
      = false ∧
    (buildAlembicImportTask "C:/assets" "/Game/Characters/Anim/" true false).replace_existing
      = false ∧
    (buildAlembicImportTask "C:/assets" "/Game/Characters/Anim/" false false).filename
      ≠ "hero_eye_01.abc" ∧
    (buildAlembicImportTask "C:/assets" "/Game/Characters/Anim/" false false).filename
      ≠ "C:/assets/hero_eye_01.abc" := by
  refine ⟨rfl, rfl, rfl, rfl, rfl, ?_, ?_⟩ <;> decide

/-- C6: the claim says the entry points propagate their overwrite flag into
every task.  They do not: src lines 184 and 201 pass
`replaceExisting=False` to `buildImportTaskList` regardless of the
parameter, so even with the flag `true` every built task carries
`replace_existing = false`.  (Evaluated on the enumeration-repaired models;
the literal pipeline raises `NameError` before building any task.) -/
theorem replaceExisting_flag_ignored_bug :
    (batchImportAlembicRun "C:/assets" "/Game/Props/" true ["prop_box.abc"]).1
      = [Event.printed ("Importing " ++ "C:/assets" ++ " to " ++ "/Game/Props/"),
         Event.importTasksCall [],
         Event.importTasksCall
           [buildAlembicImportTask "C:/assets" "/Game/Props/" true false]] ∧
    (buildAlembicImportTask "C:/assets" "/Game/Props/" true false).replace_existing
      = false ∧
    (batchImportVerboseRun "fbx" "C:/assets" "/Game/Props/" true ["hero_eye.abc"]).1
      = [Event.printed ("Importing " ++ "C:/assets" ++ " to " ++ "/Game/Props/"),
         Event.importTasksCall
           [buildAlembicImportTask "C:/assets" "/Game/Props/" false false]] ∧
    (buildAlembicImportTask "C:/assets" "/Game/Props/" false false).replace_existing
      = false := by
  refine ⟨?_, rfl, ?_, rfl⟩ <;> rfl

/-- C7: the claim says `batchImportAlembic` submits the manual group first,
then the automatic group, as two calls.  The literal code never submits
anything: the task-list call raises `NameError` (unbound `srcDir`) first.
On the enumeration-repaired model the submission order of src lines 187-188
is indeed manual first, then automatic, as two separate calls. -/
theorem batchImport_submission_order_bug (srcPath gameDir : String)
    (replaceExisting : Bool) (files : List String) :
    batchImportAlembic srcPath gameDir replaceExisting
      = ([], PyResult.raised (PyError.nameError "srcDir")) ∧
    (batchImportAlembicRun srcPath gameDir replaceExisting files).1
      = (importTaskLoop (builderFor Filetype.abc) (classifierFor Filetype.abc)
            srcPath gameDir false files).1.map Event.printed
        ++ [Event.importTasksCall
              (importTaskLoop (builderFor Filetype.abc) (classifierFor Filetype.abc)
                srcPath gameDir false files).2.1,
            Event.importTasksCall
              (importTaskLoop (builderFor Filetype.abc) (classifierFor Filetype.abc)
                srcPath gameDir false files).2.2] ∧
    (batchImportAlembicRun srcPath gameDir replaceExisting files).2
      = PyResult.returned () := by
  exact ⟨rfl, rfl, rfl⟩

/-- C8: the claim says the verbose variant reports progress once per
automatic task, three times for three tasks.  The loop of src lines 214-225
would do exactly that (print, submit the single task, then one progress
frame, per task) — but it is never reached: after submitting the manual
group, building the progress label (src line 208) raises `NameError` on
the unbound names `character`/`anim`, so a run with three automatic tasks
reports progress zero times. -/
theorem verbose_progress_unreached_bug (t1 t2 t3 : AssetImportTask) :
    verboseAutoLoop [t1, t2, t3]
      = [Event.printed ("Importing " ++ t1.filename ++ " to " ++ t1.destination_path),
         Event.importTasksCall [t1], Event.progressFrame 1,
         Event.printed ("Importing " ++ t2.filename ++ " to " ++ t2.destination_path),
         Event.importTasksCall [t2], Event.progressFrame 1,
         Event.printed ("Importing " ++ t3.filename ++ " to " ++ t3.destination_path),
         Event.importTasksCall [t3], Event.progressFrame 1] ∧
    (verboseAutoLoop [t1, t2, t3]).countP Event.isProgress = 3 ∧
    (batchImportVerboseRun "abc" "C:/assets" "/Game/" false
        ["a.abc", "b.abc", "c.abc"]).2
      = PyResult.raised (PyError.nameError "character") ∧
    ((batchImportVerboseRun "abc" "C:/assets" "/Game/" false
        ["a.abc", "b.abc", "c.abc"]).1.countP Event.isProgress) = 0 := by
  refine ⟨rfl, ?_, by decide, by decide⟩
  simp [verboseAutoLoop, List.countP_cons, Event.isProgress, List.countP_nil]

/-- C9: in the loop of src lines 156-169 (for either recognized file type),
every entry the classifier marks manual gets a task built with
`automated=False`, and every other entry a task built with
`automated=True`; the builders store that flag unchanged in the task. -/
theorem loop_automated_flag_partition (k : Filetype) (srcPath gameDir : String)
    (replaceExisting : Bool) (files : List String) :
    (importTaskLoop (builderFor k) (classifierFor k) srcPath gameDir
        replaceExisting files).2.1
      = (files.filter (classifierFor k)).map
          (fun _ => builderFor k srcPath gameDir false replaceExisting) ∧
    (importTaskLoop (builderFor k) (classifierFor k) srcPath gameDir
        replaceExisting files).2.2
      = (files.filter (fun f => !classifierFor k f)).map
          (fun _ => builderFor k srcPath gameDir true replaceExisting) ∧
    (builderFor k srcPath gameDir false replaceExisting).automated = false ∧
    (builderFor k srcPath gameDir true replaceExisting).automated = true := by
  refine ⟨?_, ?_, ?_, ?_⟩
  · rw [importTaskLoop_eq]
  · rw [importTaskLoop_eq]
  · cases k <;> rfl
  · cases k <;> rfl

/-- C10: the selector is matched on its lowercasing — any string lowering
to `"abc"` (resp. `"fbx"`) is dispatched to the Alembic (resp. FBX) branch,
with the same behavior as the canonical selector, not rejected as
invalid. -/
theorem filetype_selector_case_insensitive (filetype srcPath gameDir : String)
    (replaceExisting : Bool) (files : List String) :
    (pyLower filetype = "abc" →
      selectFiletype filetype = some Filetype.abc ∧
      buildImportTaskListRun filetype srcPath gameDir replaceExisting files
        = buildImportTaskListRun "abc" srcPath gameDir replaceExisting files ∧
      buildImportTaskList filetype srcPath gameDir replaceExisting
        = buildImportTaskList "abc" srcPath gameDir replaceExisting) ∧
    (pyLower filetype = "fbx" →
      selectFiletype filetype = some Filetype.fbx ∧
      buildImportTaskListRun filetype srcPath gameDir replaceExisting files
        = buildImportTaskListRun "fbx" srcPath gameDir replaceExisting files ∧
      buildImportTaskList filetype srcPath gameDir replaceExisting
        = buildImportTaskList "fbx" srcPath gameDir replaceExisting) := by
  constructor
  · intro h
    have hs : selectFiletype filetype = some Filetype.abc := by
      rw [selectFiletype, if_pos h]
    have hs2 : selectFiletype "abc" = some Filetype.abc := by decide
    exact ⟨hs, by simp only [buildImportTaskListRun, hs, hs2],
      by simp only [buildImportTaskList, hs, hs2]⟩
  · intro h
    have hne : pyLower filetype ≠ "abc" := by
      rw [h]
      decide
    have hs : selectFiletype filetype = some Filetype.fbx := by
      rw [selectFiletype, if_neg hne, if_pos h]
    have hs2 : selectFiletype "fbx" = some Filetype.fbx := by decide
    exact ⟨hs, by simp only [buildImportTaskListRun, hs, hs2],
      by simp only [buildImportTaskList, hs, hs2]⟩

/-- Witness for C10: `"ABC"` and `"Fbx"` are both recognized and dispatched
to their respective branches. -/
theorem filetype_selector_case_insensitive_witness :
    selectFiletype "ABC" = some Filetype.abc ∧
    selectFiletype "Fbx" = some Filetype.fbx :=
  ⟨((filetype_selector_case_insensitive "ABC" "C:/assets" "/Game/" false []).1
      (by decide)).1,
   ((filetype_selector_case_insensitive "Fbx" "C:/assets" "/Game/" false []).2
      (by decide)).1⟩
